import Mathlib

/-!
# chiseltest JNI binding layer and VPI registration table

A shallow embedding of

* `src/main/resources/jni/chiseltest_simulator_jni_JniAPI.c` (namespace `JniAPI`),
* `src/main/resources/jni/chiseltest_simulator_jni_JniAPI_00024.c` (namespace `JniAPI_00024`),
* `src/main/resources/verilator/vpi_register.cpp` (namespace `VpiRegister`).

Conventions of the embedding.

* An address (`void *`, function pointer) is a natural number, `0` being `NULL`.
* The twelve global arrays have 1024 slots and static storage, so they start out
  all `NULL`.  No function of the two files checks an index.  An access `t[i]` with
  `0 ≤ i < 1024` is the slot `i` of `t`.  An access with `i` outside that range is the
  word that lies `i` words from the start of `t` in memory: a slot of another array
  or a word outside the arrays.  Which one it is depends on where the arrays were
  placed; the source does not say, so the placement is part of the state
  (`Placement`, `Registry.read`, `Registry.write`).  Faults on unmapped memory are
  not described.
* A call through a null function pointer and a `strcpy` past the end of its
  destination are explicit outcomes, `Outcome.undefined`, after which nothing more
  is executed.
* The dynamic loader (`dlopen`, `dlsym`, `dlerror`) and the code of the loaded
  modules are outside the source files; they are inputs: `LoadInput` and `Native`.
* `jint`/`int32_t` and `jlong`/`int64_t` values are integers.  `so_id`, `s`, `id`,
  `offset`, `cycles` and `argc` reach the callee through parameters of their own
  width and are passed as they are.  The `value` parameter and the results, whose
  widths differ between the two files, are reduced to their declared width.
-/

/-- An address: the value of a `void *` or of a function pointer, `0` for `NULL`. -/
abbrev Addr := Nat

/-- The value of a `jint` / `int32_t` holding `x`: two's complement, 32 bits. -/
def toInt32 (x : Int) : Int := (x + 2 ^ 31) % 2 ^ 32 - 2 ^ 31

/-- The value of a `jlong` / `int64_t` holding `x`: two's complement, 64 bits. -/
def toInt64 (x : Int) : Int := (x + 2 ^ 63) % 2 ^ 64 - 2 ^ 63

/-- The eleven names handed to `dlsym` by `load_so`. -/
inductive AbiSymbol
  | sim_init
  | step
  | update
  | finish
  | resetCoverage
  | writeCoverage
  | poke
  | peek
  | poke_wide
  | peek_wide
  | set_args
  deriving DecidableEq

/-- The string literal passed to `dlsym` for each symbol. -/
def AbiSymbol.literal : AbiSymbol → String
  | .sim_init => "sim_init"
  | .step => "step"
  | .update => "update"
  | .finish => "finish"
  | .resetCoverage => "resetCoverage"
  | .writeCoverage => "writeCoverage"
  | .poke => "poke"
  | .peek => "peek"
  | .poke_wide => "poke_wide"
  | .peek_wide => "peek_wide"
  | .set_args => "set_args"

/-- Behaviour the C standard does not define, in the places where the source can reach it. -/
inductive UB
  /-- a call through a function pointer that is `NULL` -/
  | nullCall
  /-- `strcpy` into a buffer too small for the string and its terminator -/
  | bufferOverflow
  /-- `GetObjectArrayElement` past the end of the Java array, then used as a string -/
  | arrayElementMissing
  deriving DecidableEq

/-- The typed failures of the host interface (`LoadError`, `InvalidHandle`,
`ArgumentTooLong`, `DispatchError`). -/
inductive HostError
  | PathNotFound
  | MissingSymbol (name : AbiSymbol)
  | ModuleIncompatible
  | InvalidHandle
  | ArgumentTooLong
  | DispatchError (code : Int)
  deriving DecidableEq

/-- How a call of one of the native functions ends.
`returned`: the function returns to the host with a value;
`exited`: the function calls `exit`, the process ends;
`undefined`: the function reaches behaviour that C leaves undefined;
`error`: a typed failure is reported to the host.  No function of the two C
files has a path that reports one; the constructor is there so that properties
about typed failures can be written down. -/
inductive Outcome (α : Type)
  | returned (a : α)
  | exited (status : Nat)
  | undefined (ub : UB)
  | error (e : HostError)
  deriving DecidableEq

/-- One of the global arrays `void *xxx_ptrs[1024]`. -/
abbrev Table := Int → Addr

/-- The assignment `t[i] = v`. -/
def Table.set (t : Table) (i : Int) (v : Addr) : Table :=
  fun j => if j = i then v else t j

/-- Whether `i` is the index of one of the 1024 elements of an array. -/
def inBounds (i : Int) : Bool := decide (0 ≤ i) && decide (i < 1024)

/-- The twelve global arrays of 1024 pointers, in the order of their declarations. -/
inductive GlobalArray
  | map
  | sim_init_ptrs
  | step_ptrs
  | finish_ptrs
  | update_ptrs
  | reset_coverage_ptrs
  | write_coverage_ptrs
  | poke_ptrs
  | peek_ptrs
  | poke_wide_ptrs
  | peek_wide_ptrs
  | set_args_ptrs
  deriving DecidableEq

/-- The twelve arrays, listed in the order of their declarations. -/
def GlobalArray.all : List GlobalArray :=
  [.map, .sim_init_ptrs, .step_ptrs, .finish_ptrs, .update_ptrs, .reset_coverage_ptrs,
   .write_coverage_ptrs, .poke_ptrs, .peek_ptrs, .poke_wide_ptrs, .peek_wide_ptrs,
   .set_args_ptrs]

/-- Where the arrays lie in memory: `base a` is the position of element 0 of `a`,
counted in pointer-sized words.  The source does not determine it. -/
structure Placement where
  base : GlobalArray → Int

/-- The array one of whose 1024 elements is the word at position `word`, if any. -/
def Placement.holder (p : Placement) (word : Int) : Option GlobalArray :=
  GlobalArray.all.find? (fun b => decide (p.base b ≤ word) && decide (word < p.base b + 1024))

/-- The arrays one after another in the order of their declarations. -/
def declarationOrder : Placement where
  base
    | .map => 0
    | .sim_init_ptrs => 1024
    | .step_ptrs => 2048
    | .finish_ptrs => 3072
    | .update_ptrs => 4096
    | .reset_coverage_ptrs => 5120
    | .write_coverage_ptrs => 6144
    | .poke_ptrs => 7168
    | .peek_ptrs => 8192
    | .poke_wide_ptrs => 9216
    | .peek_wide_ptrs => 10240
    | .set_args_ptrs => 11264

/-- The global state of one of the two C files: `id_counter` and the twelve arrays
(`map` is declared but no statement names it), together with the words that lie
outside the arrays (`beyond`, by position) and the placement of the arrays.
`id_counter` and `id_lock` are kept apart from `beyond`: a store that lands outside
the arrays is recorded there and is taken not to reach them. -/
structure Registry where
  id_counter : Int
  map : Table
  sim_init_ptrs : Table
  step_ptrs : Table
  finish_ptrs : Table
  update_ptrs : Table
  reset_coverage_ptrs : Table
  write_coverage_ptrs : Table
  poke_ptrs : Table
  peek_ptrs : Table
  poke_wide_ptrs : Table
  peek_wide_ptrs : Table
  set_args_ptrs : Table
  beyond : Table
  placement : Placement

/-- The state at program start for a given placement: `id_counter = 0`, static
arrays zero-initialised. -/
def Registry.initAt (p : Placement) : Registry where
  id_counter := 0
  map := fun _ => 0
  sim_init_ptrs := fun _ => 0
  step_ptrs := fun _ => 0
  finish_ptrs := fun _ => 0
  update_ptrs := fun _ => 0
  reset_coverage_ptrs := fun _ => 0
  write_coverage_ptrs := fun _ => 0
  poke_ptrs := fun _ => 0
  peek_ptrs := fun _ => 0
  poke_wide_ptrs := fun _ => 0
  peek_wide_ptrs := fun _ => 0
  set_args_ptrs := fun _ => 0
  beyond := fun _ => 0
  placement := p

/-- The state at program start, the arrays placed in the order of their declarations. -/
def Registry.init : Registry := Registry.initAt declarationOrder

/-- The contents of an array. -/
def Registry.array (reg : Registry) : GlobalArray → Table
  | .map => reg.map
  | .sim_init_ptrs => reg.sim_init_ptrs
  | .step_ptrs => reg.step_ptrs
  | .finish_ptrs => reg.finish_ptrs
  | .update_ptrs => reg.update_ptrs
  | .reset_coverage_ptrs => reg.reset_coverage_ptrs
  | .write_coverage_ptrs => reg.write_coverage_ptrs
  | .poke_ptrs => reg.poke_ptrs
  | .peek_ptrs => reg.peek_ptrs
  | .poke_wide_ptrs => reg.poke_wide_ptrs
  | .peek_wide_ptrs => reg.peek_wide_ptrs
  | .set_args_ptrs => reg.set_args_ptrs

/-- The state in which slot `i` of array `a` holds `v`. -/
def Registry.setArray (reg : Registry) (a : GlobalArray) (i : Int) (v : Addr) : Registry :=
  match a with
  | .map => { reg with map := reg.map.set i v }
  | .sim_init_ptrs => { reg with sim_init_ptrs := reg.sim_init_ptrs.set i v }
  | .step_ptrs => { reg with step_ptrs := reg.step_ptrs.set i v }
  | .finish_ptrs => { reg with finish_ptrs := reg.finish_ptrs.set i v }
  | .update_ptrs => { reg with update_ptrs := reg.update_ptrs.set i v }
  | .reset_coverage_ptrs => { reg with reset_coverage_ptrs := reg.reset_coverage_ptrs.set i v }
  | .write_coverage_ptrs => { reg with write_coverage_ptrs := reg.write_coverage_ptrs.set i v }
  | .poke_ptrs => { reg with poke_ptrs := reg.poke_ptrs.set i v }
  | .peek_ptrs => { reg with peek_ptrs := reg.peek_ptrs.set i v }
  | .poke_wide_ptrs => { reg with poke_wide_ptrs := reg.poke_wide_ptrs.set i v }
  | .peek_wide_ptrs => { reg with peek_wide_ptrs := reg.peek_wide_ptrs.set i v }
  | .set_args_ptrs => { reg with set_args_ptrs := reg.set_args_ptrs.set i v }

/-- The read `a[i]`, unchecked.  For `0 ≤ i < 1024` it is slot `i` of `a`; otherwise
it is the word `i` words from the start of `a`: a slot of the array that holds that
word, or a word outside the arrays. -/
def Registry.read (reg : Registry) (a : GlobalArray) (i : Int) : Addr :=
  if inBounds i then reg.array a i
  else
    match reg.placement.holder (reg.placement.base a + i) with
    | some b => reg.array b (reg.placement.base a + i - reg.placement.base b)
    | none => reg.beyond (reg.placement.base a + i)

/-- The assignment `a[i] = v`, unchecked.  For `0 ≤ i < 1024` it sets slot `i` of `a`;
otherwise it sets the word `i` words from the start of `a`: a slot of the array that
holds that word, or a word outside the arrays. -/
def Registry.write (reg : Registry) (a : GlobalArray) (i : Int) (v : Addr) : Registry :=
  if inBounds i then reg.setArray a i v
  else
    match reg.placement.holder (reg.placement.base a + i) with
    | some b => reg.setArray b (reg.placement.base a + i - reg.placement.base b) v
    | none => { reg with beyond := reg.beyond.set (reg.placement.base a + i) v }

/-- The array that belongs to a symbol. -/
def AbiSymbol.array : AbiSymbol → GlobalArray
  | .sim_init => .sim_init_ptrs
  | .step => .step_ptrs
  | .update => .update_ptrs
  | .finish => .finish_ptrs
  | .resetCoverage => .reset_coverage_ptrs
  | .writeCoverage => .write_coverage_ptrs
  | .poke => .poke_ptrs
  | .peek => .peek_ptrs
  | .poke_wide => .poke_wide_ptrs
  | .peek_wide => .peek_wide_ptrs
  | .set_args => .set_args_ptrs

/-- The array in which `load_so` stores the address of a symbol. -/
def Registry.table (reg : Registry) : AbiSymbol → Table
  | .sim_init => reg.sim_init_ptrs
  | .step => reg.step_ptrs
  | .update => reg.update_ptrs
  | .finish => reg.finish_ptrs
  | .resetCoverage => reg.reset_coverage_ptrs
  | .writeCoverage => reg.write_coverage_ptrs
  | .poke => reg.poke_ptrs
  | .peek => reg.peek_ptrs
  | .poke_wide => reg.poke_wide_ptrs
  | .peek_wide => reg.peek_wide_ptrs
  | .set_args => reg.set_args_ptrs

/-- What `dlopen` hands back on success: a shared object, seen through `dlsym`.
`dlsym so name` is the address of `name`, or `0` (`NULL`) when the object does
not export it. -/
structure SharedObject where
  dlsym : AbiSymbol → Addr

/-- What the dynamic loader answers during one call of `load_so`:
`so_handle` is the result of `dlopen` (`none` for `NULL`), `dlerror_pending`
tells whether the `dlerror()` call that follows the counter update returns a
message. -/
structure LoadInput where
  so_handle : Option SharedObject
  dlerror_pending : Bool

/-- The loader opens the module and reports no error. -/
def LoadInput.opens (inp : LoadInput) : Bool :=
  inp.so_handle.isSome && !inp.dlerror_pending

/-- A host string as `GetStringUTFChars` delivers it: its bytes, the terminating
`0` not included. -/
abbrev CString := List Nat

/-- The C function `strlen` on the terminated array of a host string. -/
def strlen (s : CString) : Nat := (s.takeWhile (fun b => b != 0)).length

/-- The C call `strcpy(dst, s)` for a destination of `size` bytes: the bytes written
(the string and its terminator), or `none` when they do not fit. -/
def strcpy (size : Nat) (s : CString) : Option (List Nat) :=
  if strlen s + 1 ≤ size then some (s.takeWhile (fun b => b != 0) ++ [0]) else none

/-- An argument of a call into a loaded module. -/
inductive Arg
  /-- an `int32_t` or `int64_t` -/
  | int (v : Int)
  /-- the state token, `(void *) s` -/
  | ptr (s : Int)
  /-- the character array of the host string itself (`const char *` from
  `GetStringUTFChars`), given by its bytes before the terminator -/
  | hostChars (bytes : List Nat)
  /-- a `char [size]` buffer on the stack, given by the bytes written to it -/
  | charBuf (size : Nat) (written : List Nat)
  /-- a `char [n][size]` buffer on the stack, each row given by the bytes
  written to it -/
  | charRows (size : Nat) (rows : List (List Nat))
  /-- an array of `char *`, each element given by the terminated bytes it points to -/
  | ptrArray (strings : List (List Nat))
  deriving DecidableEq

/-- A call through a function pointer: the address called and the arguments. -/
structure Call where
  fn : Addr
  args : List Arg
  deriving DecidableEq

/-- The code of the loaded modules: what a call does to the modules' state `σ`
and what it returns (the value is ignored for `void` entry points). -/
structure Native (σ : Type) where
  exec : Call → σ → Int × σ

/-- The record of one host call: how it ended, which calls into modules it
made, and the modules' state afterwards. -/
structure Run (σ : Type) (α : Type) where
  outcome : Outcome α
  calls : List Call
  native : σ

/-- The statement pair `*(void **)(&f) = a[so_id]; f(args)`: the pointer is read
from the array, unchecked, and called; a call through `NULL` ends the run; `conv`
turns the callee's result into the value handed back. -/
def dispatch {σ α : Type} (w : Native σ) (reg : Registry) (a : GlobalArray) (so_id : Int)
    (args : List Arg) (conv : Int → α) (st : σ) : Run σ α :=
  if reg.read a so_id = 0 then ⟨.undefined .nullCall, [], st⟩
  else
    ⟨.returned (conv (w.exec ⟨reg.read a so_id, args⟩ st).1), [⟨reg.read a so_id, args⟩],
      (w.exec ⟨reg.read a so_id, args⟩ st).2⟩

/-- Lines 48-117 of `load_so`, common to both files: the counter is read and
incremented (an `int`, 32 bits), `dlerror()` is consulted and the process exits with
`EXIT_FAILURE` when it has a message, the eleven symbols are looked up and stored
one after the other, unchecked, at index `so_id` of their arrays, and `so_id` is
returned. -/
def load_core (reg : Registry) (so : SharedObject) (dlerror_pending : Bool) :
    Outcome (Int × Registry) :=
  let so_id := reg.id_counter
  if dlerror_pending then .exited 1
  else
    .returned (so_id,
      ((((((((((({ reg with id_counter := toInt32 (reg.id_counter + 1) }
        ).write .sim_init_ptrs so_id (so.dlsym .sim_init)
        ).write .step_ptrs so_id (so.dlsym .step)
        ).write .update_ptrs so_id (so.dlsym .update)
        ).write .finish_ptrs so_id (so.dlsym .finish)
        ).write .reset_coverage_ptrs so_id (so.dlsym .resetCoverage)
        ).write .write_coverage_ptrs so_id (so.dlsym .writeCoverage)
        ).write .poke_ptrs so_id (so.dlsym .poke)
        ).write .peek_ptrs so_id (so.dlsym .peek)
        ).write .poke_wide_ptrs so_id (so.dlsym .poke_wide)
        ).write .peek_wide_ptrs so_id (so.dlsym .peek_wide)
        ).write .set_args_ptrs so_id (so.dlsym .set_args))

namespace JniAPI

/-- `Java_chiseltest_simulator_jni_JniAPI_load_1so`: `dlopen` on the host's
path; `exit(1)` when it returns `NULL`; otherwise the common part. -/
def load_so (reg : Registry) (inp : LoadInput) : Outcome (Int × Registry) :=
  match inp.so_handle with
  | none => .exited 1
  | some so => load_core reg so inp.dlerror_pending

end JniAPI

/-- A run that stops before any call into a module. -/
def Run.stop {σ α : Type} (o : Outcome α) (st : σ) : Run σ α := ⟨o, [], st⟩

namespace JniAPI

/-- `call_1sim_1init (so_id)`: calls `sim_init()` and returns the pointer as a `jlong`. -/
def call_sim_init {σ : Type} (reg : Registry) (w : Native σ) (so_id : Int) (st : σ) :
    Run σ Int :=
  dispatch w reg .sim_init_ptrs so_id [] toInt64 st

/-- `call_1step (so_id, s, cycles)`, declared `jlong`: returns `step((void *) s, cycles)`,
an `int64_t`. -/
def call_step {σ : Type} (reg : Registry) (w : Native σ) (so_id s cycles : Int) (st : σ) :
    Run σ Int :=
  dispatch w reg .step_ptrs so_id [.ptr s, .int cycles] toInt64 st

/-- `call_1update (so_id, s)`: calls `update((void *) s)`. -/
def call_update {σ : Type} (reg : Registry) (w : Native σ) (so_id s : Int) (st : σ) :
    Run σ Unit :=
  dispatch w reg .update_ptrs so_id [.ptr s] (fun _ => ()) st

/-- `call_1finish (so_id, s)`: calls `finish((void *) s)`. -/
def call_finish {σ : Type} (reg : Registry) (w : Native σ) (so_id s : Int) (st : σ) :
    Run σ Unit :=
  dispatch w reg .finish_ptrs so_id [.ptr s] (fun _ => ()) st

/-- `call_1resetCoverage (so_id, s)`: calls `reset_coverage((void *) s)`. -/
def call_resetCoverage {σ : Type} (reg : Registry) (w : Native σ) (so_id s : Int) (st : σ) :
    Run σ Unit :=
  dispatch w reg .reset_coverage_ptrs so_id [.ptr s] (fun _ => ()) st

/-- `call_1writeCoverage (so_id, s, filename)`: calls
`write_coverage((void *) s, filename_str)` on the characters obtained from
`GetStringUTFChars`; the copy into `cap` is commented out in this file. -/
def call_writeCoverage {σ : Type} (reg : Registry) (w : Native σ) (so_id s : Int)
    (filename : CString) (st : σ) : Run σ Unit :=
  dispatch w reg .write_coverage_ptrs so_id
    [.ptr s, .hostChars (filename.takeWhile (fun b => b != 0))] (fun _ => ()) st

/-- `call_1poke (so_id, s, id, value)` with `jlong value`: calls
`poke((void *) s, id, value)`. -/
def call_poke {σ : Type} (reg : Registry) (w : Native σ) (so_id s id value : Int) (st : σ) :
    Run σ Unit :=
  dispatch w reg .poke_ptrs so_id [.ptr s, .int id, .int (toInt64 value)] (fun _ => ()) st

/-- `call_1peek (so_id, s, id)`, declared `jlong`: returns `peek((void *) s, id)`, called
through a pointer of type `int64_t (*)(void *, int32_t)`. -/
def call_peek {σ : Type} (reg : Registry) (w : Native σ) (so_id s id : Int) (st : σ) :
    Run σ Int :=
  dispatch w reg .peek_ptrs so_id [.ptr s, .int id] toInt64 st

/-- `call_1poke_1wide (so_id, s, id, offset, value)` with `jlong value`: calls
`poke_wide((void *) s, id, offset, value)`. -/
def call_poke_wide {σ : Type} (reg : Registry) (w : Native σ) (so_id s id offset value : Int)
    (st : σ) : Run σ Unit :=
  dispatch w reg .poke_wide_ptrs so_id [.ptr s, .int id, .int offset, .int (toInt64 value)]
    (fun _ => ()) st

/-- `call_1peek_1wide (so_id, s, id, offset)`, declared `jlong`: returns
`peek_wide((void *) s, id, offset)`, an `int64_t`. -/
def call_peek_wide {σ : Type} (reg : Registry) (w : Native σ) (so_id s id offset : Int)
    (st : σ) : Run σ Int :=
  dispatch w reg .peek_wide_ptrs so_id [.ptr s, .int id, .int offset] toInt64 st

/-- The loop of `call_1set_1args`: for `i = 0 .. argc - 1` the element `i` of the Java
array is fetched and copied with `strcpy` into the row `buf[i]` of 1024 bytes. -/
def copy_args : Nat → List CString → Outcome (List (List Nat))
  | 0, _ => .returned []
  | _ + 1, [] => .undefined .arrayElementMissing
  | n + 1, a :: rest =>
    match strcpy 1024 a with
    | none => .undefined .bufferOverflow
    | some row =>
      match copy_args n rest with
      | .returned rows => .returned (row :: rows)
      | .exited c => .exited c
      | .undefined u => .undefined u
      | .error e => .error e

/-- `call_1set_1args (so_id, s, argc, argv)`: declares `char buf[argc][1024]`, copies the
`argc` strings into its rows (none when `argc ≤ 0`) and calls
`set_args((void *) s, argc, (char **) buf)`: the third argument is the address of the
character block. -/
def call_set_args {σ : Type} (reg : Registry) (w : Native σ) (so_id s argc : Int)
    (argv : List CString) (st : σ) : Run σ Unit :=
  match copy_args argc.toNat argv with
  | .returned rows =>
    dispatch w reg .set_args_ptrs so_id [.ptr s, .int argc, .charRows 1024 rows]
      (fun _ => ()) st
  | .exited c => Run.stop (.exited c) st
  | .undefined u => Run.stop (.undefined u) st
  | .error e => Run.stop (.error e) st

end JniAPI

namespace JniAPI_00024

/-- `Java_chiseltest_simulator_jni_JniAPI_00024_load_1so`: the path is copied with
`strcpy` into `char cap[128]` and `dlopen(cap)` is called; the rest is as in the
other file. -/
def load_so (reg : Registry) (path : CString) (inp : LoadInput) : Outcome (Int × Registry) :=
  match strcpy 128 path with
  | none => .undefined .bufferOverflow
  | some _ =>
    match inp.so_handle with
    | none => .exited 1
    | some so => load_core reg so inp.dlerror_pending

/-- `call_1sim_1init (so_id)`, as in the other file. -/
def call_sim_init {σ : Type} (reg : Registry) (w : Native σ) (so_id : Int) (st : σ) :
    Run σ Int :=
  dispatch w reg .sim_init_ptrs so_id [] toInt64 st

/-- `call_1step (so_id, s, cycles)`, declared `jint`: the `int64_t` result of
`step((void *) s, cycles)` is converted to `jint` by the `return`. -/
def call_step {σ : Type} (reg : Registry) (w : Native σ) (so_id s cycles : Int) (st : σ) :
    Run σ Int :=
  dispatch w reg .step_ptrs so_id [.ptr s, .int cycles] (fun r => toInt32 (toInt64 r)) st

/-- `call_1update (so_id, s)`, as in the other file. -/
def call_update {σ : Type} (reg : Registry) (w : Native σ) (so_id s : Int) (st : σ) :
    Run σ Unit :=
  dispatch w reg .update_ptrs so_id [.ptr s] (fun _ => ()) st

/-- `call_1finish (so_id, s)`, as in the other file. -/
def call_finish {σ : Type} (reg : Registry) (w : Native σ) (so_id s : Int) (st : σ) :
    Run σ Unit :=
  dispatch w reg .finish_ptrs so_id [.ptr s] (fun _ => ()) st

/-- `call_1resetCoverage (so_id, s)`, as in the other file. -/
def call_resetCoverage {σ : Type} (reg : Registry) (w : Native σ) (so_id s : Int) (st : σ) :
    Run σ Unit :=
  dispatch w reg .reset_coverage_ptrs so_id [.ptr s] (fun _ => ()) st

/-- `call_1writeCoverage (so_id, s, filename)`: the file name is copied with `strcpy`
into `char cap[128]`, then `write_coverage((void *) s, cap)` is called. -/
def call_writeCoverage {σ : Type} (reg : Registry) (w : Native σ) (so_id s : Int)
    (filename : CString) (st : σ) : Run σ Unit :=
  match strcpy 128 filename with
  | none => Run.stop (.undefined .bufferOverflow) st
  | some written =>
    dispatch w reg .write_coverage_ptrs so_id [.ptr s, .charBuf 128 written] (fun _ => ()) st

/-- `call_1poke (so_id, s, id, value)` with `jint value`, declared `jint`: calls
`poke((void *) s, id, value)`.  The parameter is 32 bits wide: of the host's value its
32-bit two's-complement reading arrives.  The function ends without a `return`, so
no value is handed back (`none`). -/
def call_poke {σ : Type} (reg : Registry) (w : Native σ) (so_id s id value : Int) (st : σ) :
    Run σ (Option Int) :=
  dispatch w reg .poke_ptrs so_id [.ptr s, .int id, .int (toInt32 value)] (fun _ => none) st

/-- `call_1peek (so_id, s, id)`, declared `jint`: the `int64_t` result of
`peek((void *) s, id)` is converted to `jint` by the `return`. -/
def call_peek {σ : Type} (reg : Registry) (w : Native σ) (so_id s id : Int) (st : σ) :
    Run σ Int :=
  dispatch w reg .peek_ptrs so_id [.ptr s, .int id] (fun r => toInt32 (toInt64 r)) st

/-- `call_1poke_1wide (so_id, s, id, offset, value)` with `jint value`: calls
`poke_wide((void *) s, id, offset, value)`.  The parameter is 32 bits wide: of the
host's value its 32-bit two's-complement reading arrives. -/
def call_poke_wide {σ : Type} (reg : Registry) (w : Native σ) (so_id s id offset value : Int)
    (st : σ) : Run σ Unit :=
  dispatch w reg .poke_wide_ptrs so_id [.ptr s, .int id, .int offset, .int (toInt32 value)]
    (fun _ => ()) st

/-- `call_1peek_1wide (so_id, s, id, offset)`, declared `jint`: the `int64_t` result of
`peek_wide((void *) s, id, offset)` is converted to `jint` by the `return`. -/
def call_peek_wide {σ : Type} (reg : Registry) (w : Native σ) (so_id s id offset : Int)
    (st : σ) : Run σ Int :=
  dispatch w reg .peek_wide_ptrs so_id [.ptr s, .int id, .int offset]
    (fun r => toInt32 (toInt64 r)) st

/-- `call_1set_1args (so_id, s, argc, argv)` with a single `jstring argv`: the string is
copied with `strcpy` into `char cap[128]` and `set_args((void *) s, argc, (char **) cap)`
is called. -/
def call_set_args {σ : Type} (reg : Registry) (w : Native σ) (so_id s argc : Int)
    (argv : CString) (st : σ) : Run σ Unit :=
  match strcpy 128 argv with
  | none => Run.stop (.undefined .bufferOverflow) st
  | some written =>
    dispatch w reg .set_args_ptrs so_id [.ptr s, .int argc, .charBuf 128 written]
      (fun _ => ()) st

end JniAPI_00024

/-- A host that calls `load_so` once per element of the list, from state `reg`:
the outcome of each call made, and the registry at the end.  A call that does
not return is the last one. -/
def load_all (reg : Registry) : List LoadInput → List (Outcome Int) × Registry
  | [] => ([], reg)
  | inp :: rest =>
    match JniAPI.load_so reg inp with
    | .returned (so_id, reg1) =>
      ((Outcome.returned so_id) :: (load_all reg1 rest).1, (load_all reg1 rest).2)
    | .exited c => ([.exited c], reg)
    | .undefined u => ([.undefined u], reg)
    | .error e => ([.error e], reg)

namespace VpiRegister

/-- The functions declared `extern "C"` at the top of `vpi_register.cpp`. -/
inductive TfFunction
  | init_rsts_calltf
  | init_ins_calltf
  | init_outs_calltf
  | init_sigs_calltf
  | tick_calltf
  | tick_compiletf
  deriving DecidableEq

/-- The values of the field `type` (`vpi_user.h`). -/
inductive SysTfType
  | vpiSysTask
  | vpiSysFunc
  deriving DecidableEq

/-- The fields of `s_vpi_systf_data` that the register functions assign; a function
pointer field assigned `0` is `none`.  (`sysfunctype` and `user_data` are never
assigned.) -/
structure s_vpi_systf_data where
  type : SysTfType
  tfname : String
  calltf : Option TfFunction
  sizetf : Option TfFunction
  compiletf : Option TfFunction
  deriving DecidableEq

/-- The descriptors the simulator kernel has been handed so far, oldest first. -/
abbrev Kernel := List s_vpi_systf_data

/-- The kernel routine `vpi_register_systf` (from `vpi_user.h`): the kernel records the
descriptor. -/
def vpi_register_systf (k : Kernel) (tf_data : s_vpi_systf_data) : Kernel :=
  k ++ [tf_data]

/-- The routine `init_rsts_register`. -/
def init_rsts_register (k : Kernel) : Kernel :=
  vpi_register_systf k
    { type := .vpiSysTask, tfname := "$init_rsts", calltf := some .init_rsts_calltf,
      sizetf := none, compiletf := none }

/-- The routine `init_ins_register`. -/
def init_ins_register (k : Kernel) : Kernel :=
  vpi_register_systf k
    { type := .vpiSysTask, tfname := "$init_ins", calltf := some .init_ins_calltf,
      sizetf := none, compiletf := none }

/-- The routine `init_outs_register`. -/
def init_outs_register (k : Kernel) : Kernel :=
  vpi_register_systf k
    { type := .vpiSysTask, tfname := "$init_outs", calltf := some .init_outs_calltf,
      sizetf := none, compiletf := none }

/-- The routine `init_sigs_register`. -/
def init_sigs_register (k : Kernel) : Kernel :=
  vpi_register_systf k
    { type := .vpiSysTask, tfname := "$init_sigs", calltf := some .init_sigs_calltf,
      sizetf := none, compiletf := none }

/-- The routine `tick_register`. -/
def tick_register (k : Kernel) : Kernel :=
  vpi_register_systf k
    { type := .vpiSysTask, tfname := "$tick", calltf := some .tick_calltf,
      sizetf := none, compiletf := some .tick_compiletf }

/-- The table `vlog_startup_routines`; the final `0` is `none`. -/
def vlog_startup_routines : List (Option (Kernel → Kernel)) :=
  [some init_rsts_register,
   some init_ins_register,
   some init_outs_register,
   some init_sigs_register,
   some tick_register,
   none]

/-- The simulator's start-up loop over a routine table: each routine is called in
order, up to the first null entry. -/
def run_startup : List (Option (Kernel → Kernel)) → Kernel → Kernel
  | [], k => k
  | none :: _, k => k
  | some routine :: rest, k => run_startup rest (routine k)

/-- The hook name of a system task: its `tfname` without the leading `$`. -/
def hookName (d : s_vpi_systf_data) : String := d.tfname.drop 1

end VpiRegister

/-- Whether a call returned to the host. -/
def Outcome.isReturned {α : Type} : Outcome α → Bool
  | .returned _ => true
  | _ => false

/-- The number of loads that returned a handle when the host runs the given loads from
the initial state. -/
def loadsReturned (ins : List LoadInput) : Nat :=
  ((load_all Registry.init ins).1.filter Outcome.isReturned).length

/-- A module that exports all eleven symbols, at the addresses 100 .. 110. -/
def fullModule : SharedObject where
  dlsym
    | .sim_init => 100
    | .step => 101
    | .update => 102
    | .finish => 103
    | .resetCoverage => 104
    | .writeCoverage => 105
    | .poke => 106
    | .peek => 107
    | .poke_wide => 108
    | .peek_wide => 109
    | .set_args => 110

/-- A load on which the loader opens `fullModule` and reports no error. -/
def fullLoad : LoadInput := ⟨some fullModule, false⟩

/-- A module like `fullModule` except that it does not export `poke`. -/
def noPokeModule : SharedObject where
  dlsym sym := if sym = .poke then 0 else fullModule.dlsym sym

/-- A load on which the loader opens `noPokeModule` and reports no error. -/
def noPokeLoad : LoadInput := ⟨some noPokeModule, false⟩

/-- Module code that does nothing and returns `0` from every entry point. -/
def idleNative : Native Unit := ⟨fun _ _ => (0, ())⟩

/-- The registry after one load of `fullModule` from the initial state: handle `0`
is assigned. -/
def oneLoaded : Registry := (load_all Registry.init [fullLoad]).2

/-- The module's `poke` and `peek` keep, for each state token and signal, the value
last poked: a `peek` after a `poke` of a 64-bit `v` returns `v`. -/
def StoresPokes {σ : Type} (w : Native σ) (pokeFn peekFn : Addr) : Prop :=
  ∀ (st : σ) (s id v : Int), toInt64 v = v →
    (w.exec ⟨peekFn, [.ptr s, .int id]⟩
      (w.exec ⟨pokeFn, [.ptr s, .int id, .int v]⟩ st).2).1 = v

/-- The module's `poke_wide` and `peek_wide` keep a vector of 64-bit words per signal:
after a `poke_wide` of `v` at offset `k`, `peek_wide` returns `v` at `k` and what it
returned before at every other offset. -/
def StoresWords {σ : Type} (w : Native σ) (pokeFn peekFn : Addr) : Prop :=
  ∀ (st : σ) (s id k v : Int), toInt64 v = v →
    (w.exec ⟨peekFn, [.ptr s, .int id, .int k]⟩
      (w.exec ⟨pokeFn, [.ptr s, .int id, .int k, .int v]⟩ st).2).1 = v ∧
    ∀ j : Int, j ≠ k →
      (w.exec ⟨peekFn, [.ptr s, .int id, .int j]⟩
        (w.exec ⟨pokeFn, [.ptr s, .int id, .int k, .int v]⟩ st).2).1
      = (w.exec ⟨peekFn, [.ptr s, .int id, .int j]⟩ st).1

/-- Code for `fullModule` that stores pokes verbatim: the state maps a state token and
a signal to the value last poked (address 106 is `poke`, 107 is `peek`). -/
def pokeStub : Native (Int → Int → Int) where
  exec c mem :=
    match c.fn, c.args with
    | 106, [.ptr s, .int id, .int v] =>
      (0, fun s1 id1 => if s1 = s ∧ id1 = id then v else mem s1 id1)
    | 107, [.ptr s, .int id] => (mem s id, mem)
    | _, _ => (0, mem)

/-- Code for `fullModule` that stores a vector of words per signal: the state maps a
state token, a signal and a word offset to the word last poked (address 108 is
`poke_wide`, 109 is `peek_wide`). -/
def wideStub : Native (Int → Int → Int → Int) where
  exec c mem :=
    match c.fn, c.args with
    | 108, [.ptr s, .int id, .int k, .int v] =>
      (0, fun s1 id1 k1 => if s1 = s ∧ id1 = id ∧ k1 = k then v else mem s1 id1 k1)
    | 109, [.ptr s, .int id, .int k] => (mem s id k, mem)
    | _, _ => (0, mem)

/-- Code for `fullModule` whose every entry point returns `2 ^ 32`. -/
def bigResultNative : Native Unit := ⟨fun _ _ => (2 ^ 32, ())⟩
/-! ## Arithmetic and registry lemmas -/

set_option maxRecDepth 100000

/-- A value within 32 bits is its own `jint` reading. -/
theorem toInt32_of_range (x : Int) (h1 : -2147483648 ≤ x) (h2 : x < 2147483648) :
    toInt32 x = x := by
  unfold toInt32
  omega

/-- The bounds check spelled out. -/
theorem inBounds_iff (i : Int) : inBounds i = true ↔ 0 ≤ i ∧ i < 1024 := by
  simp [inBounds]

/-- A store does not touch the counter. -/
theorem write_id_counter (reg : Registry) (a : GlobalArray) (i : Int) (v : Addr) :
    (reg.write a i v).id_counter = reg.id_counter := by
  unfold Registry.write
  split
  · cases a <;> rfl
  · split
    · rename_i b _
      cases b <;> rfl
    · rfl

/-- A store within an array changes that slot of that array and nothing else. -/
theorem write_array (reg : Registry) (a : GlobalArray) (i : Int) (v : Addr)
    (hi : inBounds i = true) (b : GlobalArray) (j : Int) :
    (reg.write a i v).array b j = if b = a ∧ j = i then v else reg.array b j := by
  unfold Registry.write
  rw [if_pos hi]
  cases a <;> cases b <;> simp [Registry.setArray, Registry.array, Table.set]

/-- The table of a symbol is the array that belongs to it. -/
theorem table_eq_array (reg : Registry) (sym : AbiSymbol) :
    reg.table sym = reg.array sym.array := by
  cases sym <;> rfl

/-- A read within an array is the slot. -/
theorem read_inBounds (reg : Registry) (a : GlobalArray) (i : Int) (hi : inBounds i = true) :
    reg.read a i = reg.array a i := by
  unfold Registry.read
  rw [if_pos hi]

/-- When the loader opens the module without error, `load_so` returns the counter and
leaves it incremented. -/
theorem load_so_opens (reg : Registry) (inp : LoadInput) (hop : inp.opens = true) :
    ∃ reg1, JniAPI.load_so reg inp = .returned (reg.id_counter, reg1) ∧
      reg1.id_counter = toInt32 (reg.id_counter + 1) := by
  obtain ⟨so, err⟩ := inp
  cases so with
  | none => simp [LoadInput.opens] at hop
  | some so =>
    simp [LoadInput.opens] at hop
    subst hop
    simp only [JniAPI.load_so, load_core, Bool.false_eq_true, if_false]
    exact ⟨_, rfl, by simp only [write_id_counter]⟩

/-- A handle returned by `load_so` is the old counter, and the new counter is its
successor as an `int`. -/
theorem load_so_returned (reg : Registry) (inp : LoadInput) (h : Int) (reg1 : Registry)
    (hr : JniAPI.load_so reg inp = .returned (h, reg1)) :
    h = reg.id_counter ∧ reg1.id_counter = toInt32 (h + 1) := by
  obtain ⟨so, err⟩ := inp
  cases so with
  | none => simp [JniAPI.load_so] at hr
  | some so =>
    simp only [JniAPI.load_so, load_core] at hr
    split at hr
    · simp at hr
    · simp only [Outcome.returned.injEq, Prod.mk.injEq] at hr
      obtain ⟨h1, h2⟩ := hr
      subst h1
      refine ⟨rfl, ?_⟩
      rw [← h2]
      simp only [write_id_counter]

/-- The tables after a load into a free slot: slot `h` holds the `dlsym` results, every
other slot is unchanged. -/
theorem load_so_table (reg : Registry) (inp : LoadInput) (h : Int) (reg1 : Registry)
    (hin : inBounds reg.id_counter = true)
    (hr : JniAPI.load_so reg inp = .returned (h, reg1)) :
    ∃ so, inp.so_handle = some so ∧
      ∀ (sym : AbiSymbol) (i : Int),
        reg1.table sym i = if i = h then so.dlsym sym else reg.table sym i := by
  obtain ⟨so, err⟩ := inp
  cases so with
  | none => simp [JniAPI.load_so] at hr
  | some so =>
    refine ⟨so, rfl, ?_⟩
    simp only [JniAPI.load_so, load_core] at hr
    split at hr
    · simp at hr
    · simp only [Outcome.returned.injEq, Prod.mk.injEq] at hr
      obtain ⟨h1, h2⟩ := hr
      subst h1
      subst h2
      intro sym i
      rw [table_eq_array, table_eq_array]
      simp only [write_array _ _ _ _ hin]
      cases sym <;> simp [AbiSymbol.array, Registry.array]

/-- The host loop after a first load that returned. -/
theorem load_all_cons_returned (reg reg1 : Registry) (inp : LoadInput) (rest : List LoadInput)
    (h : Int) (hl : JniAPI.load_so reg inp = .returned (h, reg1)) :
    load_all reg (inp :: rest) =
      ((Outcome.returned h) :: (load_all reg1 rest).1, (load_all reg1 rest).2) := by
  simp only [load_all, hl]

/-- Slots at or above the counter stay `NULL` while the loads that return are fewer
than the slots: a slot `h < 1024` at or above the start counter plus the number of
loads that returned is `NULL` at the end. -/
theorem load_all_unassigned (ins : List LoadInput) :
    ∀ (reg : Registry), 0 ≤ reg.id_counter →
      (∀ (sym : AbiSymbol) (i : Int), reg.id_counter ≤ i → inBounds i = true →
        reg.table sym i = 0) →
      ∀ (h : Int),
        reg.id_counter + ((load_all reg ins).1.filter Outcome.isReturned).length ≤ h →
        h < 1024 → ∀ sym : AbiSymbol, (load_all reg ins).2.table sym h = 0 := by
  induction ins with
  | nil =>
    intro reg h0 hz h hle hlt sym
    simp [load_all] at hle
    exact hz sym h hle ((inBounds_iff _).2 ⟨by omega, hlt⟩)
  | cons inp rest ih =>
    intro reg h0 hz h hle hlt sym
    cases hl : JniAPI.load_so reg inp with
    | returned p =>
      obtain ⟨so_id, reg1⟩ := p
      obtain ⟨h1, h3⟩ := load_so_returned reg inp so_id reg1 hl
      rw [load_all_cons_returned reg reg1 inp rest so_id hl] at hle ⊢
      simp only [List.filter_cons, Outcome.isReturned, if_true, List.length_cons] at hle
      push_cast at hle
      have hin : inBounds reg.id_counter = true := (inBounds_iff _).2 ⟨h0, by omega⟩
      obtain ⟨so, _, htab⟩ := load_so_table reg inp so_id reg1 hin hl
      rw [h1, toInt32_of_range _ (by omega) (by omega)] at h3
      refine ih reg1 (by omega) ?_ h (by omega) hlt sym
      intro sym1 i hi hib
      rw [htab sym1 i, if_neg (by omega)]
      exact hz sym1 i (by omega) hib
    | exited c =>
      simp only [load_all, hl, List.filter_cons, Outcome.isReturned] at hle ⊢
      simp at hle
      exact hz sym h hle ((inBounds_iff _).2 ⟨by omega, hlt⟩)
    | undefined u =>
      simp only [load_all, hl, List.filter_cons, Outcome.isReturned] at hle ⊢
      simp at hle
      exact hz sym h hle ((inBounds_iff _).2 ⟨by omega, hlt⟩)
    | error e =>
      simp only [load_all, hl, List.filter_cons, Outcome.isReturned] at hle ⊢
      simp at hle
      exact hz sym h hle ((inBounds_iff _).2 ⟨by omega, hlt⟩)

/-- A read and call at a slot within the array that holds `NULL` makes no call. -/
theorem dispatch_unassigned {σ α : Type} (w : Native σ) (reg : Registry) (a : GlobalArray)
    (h : Int) (args : List Arg) (conv : Int → α) (st : σ) (hb : inBounds h = true)
    (hz : reg.array a h = 0) :
    dispatch w reg a h args conv st = ⟨.undefined .nullCall, [], st⟩ := by
  unfold dispatch
  rw [read_inBounds reg a h hb, if_pos hz]

/-- A read and call at a slot within the array that does not hold `NULL` makes exactly
the call to the address in the slot. -/
theorem dispatch_assigned {σ α : Type} (w : Native σ) (reg : Registry) (a : GlobalArray)
    (h : Int) (args : List Arg) (conv : Int → α) (st : σ) (hb : inBounds h = true)
    (hn : reg.array a h ≠ 0) :
    dispatch w reg a h args conv st =
      ⟨.returned (conv (w.exec ⟨reg.array a h, args⟩ st).1), [⟨reg.array a h, args⟩],
        (w.exec ⟨reg.array a h, args⟩ st).2⟩ := by
  unfold dispatch
  rw [read_inBounds reg a h hb, if_neg hn]

/-- Claim C2, as amended: no operation validates its handle and none fails with
`InvalidHandle`. In every registry reached from the initial state by `load_so` calls,
for every handle `h` within the arrays that no load has returned (`h < 1024` and `h`
at least the number of loads that returned), each of `call_sim_init`, `call_step`,
`call_update`, `call_finish`, `call_resetCoverage`, `call_writeCoverage`,
`call_poke`, `call_peek`, `call_poke_wide`, `call_peek_wide`, and `call_set_args`
(for a count that is not negative, once its strings are copied), reads the `NULL` of the unassigned slot and calls
through it: the run ends there, no entry point of a module is invoked and the
modules' state is untouched. -/
theorem unassigned_handle_undefined {σ : Type} (ins : List LoadInput) (w : Native σ) (st : σ)
    (h s id offset cycles value argc : Int) (filename : CString) (argv : List CString)
    (rows : List (List Nat))
    (hlo : (loadsReturned ins : Int) ≤ h) (hhi : h < 1024)
    (hargc : 0 ≤ argc) (hrows : JniAPI.copy_args argc.toNat argv = .returned rows) :
    (JniAPI.call_sim_init (load_all Registry.init ins).2 w h st)
        = ⟨.undefined .nullCall, [], st⟩ ∧
    (JniAPI.call_step (load_all Registry.init ins).2 w h s cycles st)
        = ⟨.undefined .nullCall, [], st⟩ ∧
    (JniAPI.call_update (load_all Registry.init ins).2 w h s st)
        = ⟨.undefined .nullCall, [], st⟩ ∧
    (JniAPI.call_finish (load_all Registry.init ins).2 w h s st)
        = ⟨.undefined .nullCall, [], st⟩ ∧
    (JniAPI.call_resetCoverage (load_all Registry.init ins).2 w h s st)
        = ⟨.undefined .nullCall, [], st⟩ ∧
    (JniAPI.call_writeCoverage (load_all Registry.init ins).2 w h s filename st)
        = ⟨.undefined .nullCall, [], st⟩ ∧
    (JniAPI.call_poke (load_all Registry.init ins).2 w h s id value st)
        = ⟨.undefined .nullCall, [], st⟩ ∧
    (JniAPI.call_peek (load_all Registry.init ins).2 w h s id st)
        = ⟨.undefined .nullCall, [], st⟩ ∧
    (JniAPI.call_poke_wide (load_all Registry.init ins).2 w h s id offset value st)
        = ⟨.undefined .nullCall, [], st⟩ ∧
    (JniAPI.call_peek_wide (load_all Registry.init ins).2 w h s id offset st)
        = ⟨.undefined .nullCall, [], st⟩ ∧
    (JniAPI.call_set_args (load_all Registry.init ins).2 w h s argc argv st)
        = ⟨.undefined .nullCall, [], st⟩ := by
  have _hargc := hargc
  have hb : inBounds h = true := (inBounds_iff _).2 ⟨by omega, hhi⟩
  have hz : ∀ sym : AbiSymbol, (load_all Registry.init ins).2.array sym.array h = 0 := by
    intro sym
    rw [← table_eq_array]
    refine load_all_unassigned ins Registry.init (by decide)
      (fun sym i _ _ => by cases sym <;> rfl) h ?_ hhi sym
    show (0 : Int) + (loadsReturned ins : Int) ≤ h
    omega
  refine ⟨dispatch_unassigned _ _ _ _ _ _ _ hb (hz .sim_init),
    dispatch_unassigned _ _ _ _ _ _ _ hb (hz .step),
    dispatch_unassigned _ _ _ _ _ _ _ hb (hz .update),
    dispatch_unassigned _ _ _ _ _ _ _ hb (hz .finish),
    dispatch_unassigned _ _ _ _ _ _ _ hb (hz .resetCoverage),
    dispatch_unassigned _ _ _ _ _ _ _ hb (hz .writeCoverage),
    dispatch_unassigned _ _ _ _ _ _ _ hb (hz .poke),
    dispatch_unassigned _ _ _ _ _ _ _ hb (hz .peek),
    dispatch_unassigned _ _ _ _ _ _ _ hb (hz .poke_wide),
    dispatch_unassigned _ _ _ _ _ _ _ hb (hz .peek_wide), ?_⟩
  unfold JniAPI.call_set_args
  rw [hrows]
  exact dispatch_unassigned _ _ _ _ _ _ _ hb (hz .set_args)

/-- After one load, handle 5 is unassigned: `call_step` on it calls through `NULL`. -/
theorem unassigned_handle_undefined_witness :
    (loadsReturned [fullLoad] : Int) ≤ 5 ∧ (5 : Int) < 1024 ∧ (0 : Int) ≤ 1 ∧
    JniAPI.copy_args (1 : Int).toNat [[97]] = .returned [[97, 0]] ∧
    JniAPI.call_step (load_all Registry.init [fullLoad]).2 idleNative 5 0 1 ()
      = ⟨.undefined .nullCall, [], ()⟩ :=
  ⟨by decide, by decide, by decide, by decide,
    (unassigned_handle_undefined [fullLoad] idleNative () 5 0 0 0 1 0 1 [] [[97]] [[97, 0]]
      (by decide) (by decide) (by decide) (by decide)).2.1⟩

/-- The claim C2 fails: in the initial registry, where no handle has been returned,
`call_step` on handle 0 does not fail with `InvalidHandle`, and after one load
neither does `call_poke` on handle 7; both call through the `NULL` of the slot. -/
theorem unassigned_handle_no_InvalidHandle :
    (JniAPI.call_step Registry.init idleNative 0 0 1 ()).outcome = .undefined .nullCall ∧
    (JniAPI.call_step Registry.init idleNative 0 0 1 ()).outcome ≠ .error .InvalidHandle ∧
    (JniAPI.call_poke oneLoaded idleNative 7 0 0 7 ()).outcome = .undefined .nullCall ∧
    (JniAPI.call_poke oneLoaded idleNative 7 0 0 7 ()).outcome ≠ .error .InvalidHandle := by
  decide

/-! ## C3: a module that lacks a symbol is loaded all the same -/

/-- Claim C3, as amended: for every registry with a free slot (`0 ≤ id_counter < 1024`)
and every module that the loader opens without error but in which a symbol `sym`
does not resolve, `load_so` does not fail: it returns the next handle `id_counter`,
advances the counter by one, stores `NULL` in the slot of `sym` for that handle and,
for every symbol, what `dlsym` answered; the slots of all other handles are
unchanged. -/
theorem load_missing_symbol_allocates (reg : Registry) (so : SharedObject) (sym : AbiSymbol)
    (hin : inBounds reg.id_counter = true) (hmiss : so.dlsym sym = 0) :
    ∃ reg1, JniAPI.load_so reg ⟨some so, false⟩ = .returned (reg.id_counter, reg1) ∧
      reg1.id_counter = reg.id_counter + 1 ∧
      reg1.table sym reg.id_counter = 0 ∧
      (∀ other : AbiSymbol, reg1.table other reg.id_counter = so.dlsym other) ∧
      (∀ (other : AbiSymbol) (i : Int), i ≠ reg.id_counter →
        reg1.table other i = reg.table other i) := by
  obtain ⟨reg1, hload, hc⟩ := load_so_opens reg ⟨some so, false⟩ (by rfl)
  obtain ⟨so1, hso, htab⟩ := load_so_table reg _ _ reg1 hin hload
  have hso1 : so1 = so := by simpa using hso.symm
  subst hso1
  have hb := (inBounds_iff _).1 hin
  rw [toInt32_of_range _ (by omega) (by omega)] at hc
  refine ⟨reg1, hload, hc, ?_, ?_, ?_⟩
  · rw [htab, if_pos rfl, hmiss]
  · intro other; rw [htab, if_pos rfl]
  · intro other i hi; rw [htab, if_neg hi]

/-- The amended C3 at the initial registry and a module without `poke`. -/
theorem load_missing_symbol_allocates_witness :
    inBounds Registry.init.id_counter = true ∧ noPokeModule.dlsym .poke = 0 ∧
    ∃ reg1, JniAPI.load_so Registry.init ⟨some noPokeModule, false⟩
        = .returned (Registry.init.id_counter, reg1) ∧
      reg1.id_counter = Registry.init.id_counter + 1 ∧
      reg1.table .poke Registry.init.id_counter = 0 ∧
      (∀ other : AbiSymbol, reg1.table other Registry.init.id_counter
        = noPokeModule.dlsym other) ∧
      (∀ (other : AbiSymbol) (i : Int), i ≠ Registry.init.id_counter →
        reg1.table other i = Registry.init.table other i) :=
  ⟨by decide, by decide,
    load_missing_symbol_allocates Registry.init noPokeModule .poke (by decide) (by decide)⟩

/-- The claim C3 fails: loading a module without `poke` from the initial registry does
not fail with `MissingSymbol poke`; it returns handle 0 and leaves the counter at 1,
so that the next load returns 1 where it would have returned 0 without that call. -/
theorem load_missing_poke_not_rejected :
    noPokeModule.dlsym .poke = 0 ∧
    JniAPI.load_so Registry.init noPokeLoad ≠ .error (.MissingSymbol .poke) ∧
    (load_all Registry.init [noPokeLoad]).1 = [.returned 0] ∧
    (load_all Registry.init [noPokeLoad]).2.id_counter = 1 ∧
    (load_all Registry.init [noPokeLoad, fullLoad]).1 = [.returned 0, .returned 1] ∧
    (load_all Registry.init [fullLoad]).1 = [.returned 0] := by
  refine ⟨by decide, ?_, by decide, by decide, by decide, by decide⟩
  intro h
  simp [JniAPI.load_so, load_core, noPokeLoad] at h

/-- A read and call at a slot within the array that holds the address `fn`, not `NULL`,
makes exactly the call to `fn`. -/
theorem dispatch_assigned_at {σ α : Type} (w : Native σ) (reg : Registry) (a : GlobalArray)
    (h : Int) (args : List Arg) (conv : Int → α) (st : σ) (fn : Addr)
    (hb : inBounds h = true) (hfn : reg.array a h = fn) (hn : fn ≠ 0) :
    dispatch w reg a h args conv st =
      ⟨.returned (conv (w.exec ⟨fn, args⟩ st).1), [⟨fn, args⟩], (w.exec ⟨fn, args⟩ st).2⟩ := by
  subst hfn
  exact dispatch_assigned w reg a h args conv st hb hn

/-- The stub `pokeStub` stores pokes verbatim. -/
theorem pokeStub_stores : StoresPokes pokeStub 106 107 := by
  intro st s id v _
  simp [pokeStub]

/-- The stub `wideStub` stores a vector of words per signal. -/
theorem wideStub_stores : StoresWords wideStub 108 109 := by
  intro st s id k v _
  refine ⟨by simp [wideStub], ?_⟩
  intro j hj
  simp [wideStub, hj]

/-- A 32-bit value is a 64-bit value. -/
theorem toInt64_of_toInt32 (v : Int) (h : toInt32 v = v) : toInt64 v = v := by
  unfold toInt32 at h
  unfold toInt64
  omega

/-! ## C5: string arguments are not length-checked -/

/-- Claim C6, as amended: on a loaded handle whose module stores poked values verbatim,
`call_poke (h, s, id, v)` followed by `call_peek (h, s, id)` returns `v` for every
64-bit `v` in `JniAPI.c`, and for every 32-bit `v` in `JniAPI_00024.c`, whose
`call_poke` takes a `jint` and whose `call_peek` returns a `jint`. -/
theorem poke_peek_roundtrip {σ : Type} (reg : Registry) (w : Native σ) (st : σ)
    (h s id v : Int) (hb : inBounds h = true)
    (hpoke : reg.poke_ptrs h ≠ 0) (hpeek : reg.peek_ptrs h ≠ 0)
    (hstore : StoresPokes w (reg.poke_ptrs h) (reg.peek_ptrs h)) :
    (toInt64 v = v →
      (JniAPI.call_poke reg w h s id v st).outcome = .returned () ∧
      (JniAPI.call_peek reg w h s id (JniAPI.call_poke reg w h s id v st).native).outcome
        = .returned v) ∧
    (toInt32 v = v →
      (JniAPI_00024.call_poke reg w h s id v st).outcome = .returned none ∧
      (JniAPI_00024.call_peek reg w h s id
          (JniAPI_00024.call_poke reg w h s id v st).native).outcome
        = .returned v) := by
  constructor
  · intro hv
    unfold JniAPI.call_poke JniAPI.call_peek
    rw [dispatch_assigned_at _ reg .poke_ptrs _ _ _ _ (reg.poke_ptrs h) hb rfl hpoke, dispatch_assigned_at _ reg .peek_ptrs _ _ _ _ (reg.peek_ptrs h) hb rfl hpeek, hv]
    refine ⟨rfl, ?_⟩
    simp only []
    rw [hstore st s id v hv, hv]
  · intro hv
    have hv64 := toInt64_of_toInt32 v hv
    unfold JniAPI_00024.call_poke JniAPI_00024.call_peek
    rw [dispatch_assigned_at _ reg .poke_ptrs _ _ _ _ (reg.poke_ptrs h) hb rfl hpoke, dispatch_assigned_at _ reg .peek_ptrs _ _ _ _ (reg.peek_ptrs h) hb rfl hpeek, hv]
    refine ⟨rfl, ?_⟩
    simp only []
    rw [hstore st s id v hv64, hv64, hv]

/-- The round trip of `2 ^ 40 + 5` through `JniAPI.c` and the stub `pokeStub`. -/
theorem poke_peek_roundtrip_witness :
    StoresPokes pokeStub (oneLoaded.poke_ptrs 0) (oneLoaded.peek_ptrs 0) ∧
    toInt64 (2 ^ 40 + 5) = 2 ^ 40 + 5 ∧
    (JniAPI.call_peek oneLoaded pokeStub 0 1 3
        (JniAPI.call_poke oneLoaded pokeStub 0 1 3 (2 ^ 40 + 5) (fun _ _ => 0)).native).outcome
      = .returned (2 ^ 40 + 5) :=
  ⟨pokeStub_stores, by decide,
    ((poke_peek_roundtrip oneLoaded pokeStub (fun _ _ => 0) 0 1 3 (2 ^ 40 + 5) (by decide)
      (by decide) (by decide) pokeStub_stores).1 (by decide)).2⟩

/-- The claim C6 fails in `JniAPI_00024.c`: poking the 64-bit value `2 ^ 32` and peeking
it back returns 0. -/
theorem poke_peek_narrow_variant_loses_value :
    toInt64 (2 ^ 32) = 2 ^ 32 ∧
    (JniAPI_00024.call_peek oneLoaded pokeStub 0 1 3
        (JniAPI_00024.call_poke oneLoaded pokeStub 0 1 3 (2 ^ 32) (fun _ _ => 0)).native).outcome
      = .returned 0 ∧
    (JniAPI_00024.call_peek oneLoaded pokeStub 0 1 3
        (JniAPI_00024.call_poke oneLoaded pokeStub 0 1 3 (2 ^ 32) (fun _ _ => 0)).native).outcome
      ≠ .returned (2 ^ 32) := by
  decide

/-! ## C7: wide poke then wide peek -/

/-- Claim C7, as amended: on a loaded handle whose module stores a vector of 64-bit
words per signal, `call_poke_wide (h, s, id, k, v)` followed by
`call_peek_wide (h, s, id, k)` returns `v` for every 64-bit `v` in `JniAPI.c` and for
every 32-bit `v` in `JniAPI_00024.c` (whose `call_poke_wide` takes a `jint` and whose
`call_peek_wide` returns a `jint`); in both files `call_peek_wide (h, s, id, j)` for
`j ≠ k` returns what it returned before the poke. -/
theorem poke_wide_peek_wide_roundtrip {σ : Type} (reg : Registry) (w : Native σ) (st : σ)
    (h s id k v : Int) (hb : inBounds h = true)
    (hpoke : reg.poke_wide_ptrs h ≠ 0) (hpeek : reg.peek_wide_ptrs h ≠ 0)
    (hstore : StoresWords w (reg.poke_wide_ptrs h) (reg.peek_wide_ptrs h)) :
    (toInt64 v = v →
      (JniAPI.call_peek_wide reg w h s id k
          (JniAPI.call_poke_wide reg w h s id k v st).native).outcome = .returned v ∧
      ∀ j : Int, j ≠ k →
        (JniAPI.call_peek_wide reg w h s id j
            (JniAPI.call_poke_wide reg w h s id k v st).native).outcome
          = (JniAPI.call_peek_wide reg w h s id j st).outcome) ∧
    (toInt32 v = v →
      (JniAPI_00024.call_peek_wide reg w h s id k
          (JniAPI_00024.call_poke_wide reg w h s id k v st).native).outcome = .returned v ∧
      ∀ j : Int, j ≠ k →
        (JniAPI_00024.call_peek_wide reg w h s id j
            (JniAPI_00024.call_poke_wide reg w h s id k v st).native).outcome
          = (JniAPI_00024.call_peek_wide reg w h s id j st).outcome) := by
  constructor
  · intro hv
    obtain ⟨hk, hj⟩ := hstore st s id k v hv
    unfold JniAPI.call_poke_wide JniAPI.call_peek_wide
    rw [dispatch_assigned_at _ reg .poke_wide_ptrs _ _ _ _ (reg.poke_wide_ptrs h) hb rfl hpoke, hv]
    refine ⟨?_, fun j hjk => ?_⟩
    · rw [dispatch_assigned_at _ reg .peek_wide_ptrs _ _ _ _ (reg.peek_wide_ptrs h) hb rfl hpeek]
      simp only []
      rw [hk, hv]
    · rw [dispatch_assigned_at _ reg .peek_wide_ptrs _ _ _ _ (reg.peek_wide_ptrs h) hb rfl hpeek, dispatch_assigned_at _ reg .peek_wide_ptrs _ _ _ _ (reg.peek_wide_ptrs h) hb rfl hpeek]
      simp only []
      rw [hj j hjk]
  · intro hv
    have hv64 := toInt64_of_toInt32 v hv
    obtain ⟨hk, hj⟩ := hstore st s id k v hv64
    unfold JniAPI_00024.call_poke_wide JniAPI_00024.call_peek_wide
    rw [dispatch_assigned_at _ reg .poke_wide_ptrs _ _ _ _ (reg.poke_wide_ptrs h) hb rfl hpoke, hv]
    refine ⟨?_, fun j hjk => ?_⟩
    · rw [dispatch_assigned_at _ reg .peek_wide_ptrs _ _ _ _ (reg.peek_wide_ptrs h) hb rfl hpeek]
      simp only []
      rw [hk, hv64, hv]
    · rw [dispatch_assigned_at _ reg .peek_wide_ptrs _ _ _ _ (reg.peek_wide_ptrs h) hb rfl hpeek, dispatch_assigned_at _ reg .peek_wide_ptrs _ _ _ _ (reg.peek_wide_ptrs h) hb rfl hpeek]
      simp only []
      rw [hj j hjk]

/-- The wide round trip of `2 ^ 40 + 5` at offset 2 through `JniAPI.c` and `wideStub`. -/
theorem poke_wide_peek_wide_roundtrip_witness :
    StoresWords wideStub (oneLoaded.poke_wide_ptrs 0) (oneLoaded.peek_wide_ptrs 0) ∧
    toInt64 (2 ^ 40 + 5) = 2 ^ 40 + 5 ∧
    (JniAPI.call_peek_wide oneLoaded wideStub 0 1 3 2
        (JniAPI.call_poke_wide oneLoaded wideStub 0 1 3 2 (2 ^ 40 + 5)
          (fun _ _ _ => 9)).native).outcome
      = .returned (2 ^ 40 + 5) :=
  ⟨wideStub_stores, by decide,
    ((poke_wide_peek_wide_roundtrip oneLoaded wideStub (fun _ _ _ => 9) 0 1 3 2 (2 ^ 40 + 5)
      (by decide) (by decide) (by decide) wideStub_stores).1 (by decide)).1⟩

/-- The claim C7 fails in `JniAPI_00024.c`: poking the 64-bit word `2 ^ 32` at offset 2 and
peeking it back returns 0. -/
theorem poke_wide_narrow_variant_loses_value :
    toInt64 (2 ^ 32) = 2 ^ 32 ∧
    (JniAPI_00024.call_peek_wide oneLoaded wideStub 0 1 3 2
        (JniAPI_00024.call_poke_wide oneLoaded wideStub 0 1 3 2 (2 ^ 32)
          (fun _ _ _ => 9)).native).outcome
      = .returned 0 ∧
    (JniAPI_00024.call_peek_wide oneLoaded wideStub 0 1 3 2
        (JniAPI_00024.call_poke_wide oneLoaded wideStub 0 1 3 2 (2 ^ 32)
          (fun _ _ _ => 9)).native).outcome
      ≠ .returned (2 ^ 32) := by
  decide

/-! ## C8: result widths of the two files -/

/-- Claim C8, evaluated where it fails: when the module's `step`, `peek` and `peek_wide`
return the 64-bit value `2 ^ 32`, the functions of `JniAPI.c` (declared `jlong`)
return `2 ^ 32`, while those of `JniAPI_00024.c` (declared `jint`) return it
narrowed to 32 bits, which is 0: the two files disagree on equal module results. -/
theorem narrow_variant_truncates_results :
    toInt64 (2 ^ 32) = 2 ^ 32 ∧
    (JniAPI.call_step oneLoaded bigResultNative 0 1 1 ()).outcome = .returned (2 ^ 32) ∧
    (JniAPI.call_peek oneLoaded bigResultNative 0 1 3 ()).outcome = .returned (2 ^ 32) ∧
    (JniAPI.call_peek_wide oneLoaded bigResultNative 0 1 3 2 ()).outcome
      = .returned (2 ^ 32) ∧
    (JniAPI_00024.call_step oneLoaded bigResultNative 0 1 1 ()).outcome = .returned 0 ∧
    (JniAPI_00024.call_peek oneLoaded bigResultNative 0 1 3 ()).outcome = .returned 0 ∧
    (JniAPI_00024.call_peek_wide oneLoaded bigResultNative 0 1 3 2 ()).outcome
      = .returned 0 := by
  decide

/-! ## C9: the argument vector of set_args -/

/-- Claim C9, evaluated where it fails: for the two strings `a` and `bc`,
`call_set_args` of `JniAPI.c` calls `set_args` once with count 2, but its third
argument is the address of the character block `char buf[2][1024]` holding the
copies, not an array of pointers to them; `call_set_args` of `JniAPI_00024.c` takes a
single string and passes the address of its 128-byte copy in the same way. -/
theorem set_args_passes_character_block :
    (JniAPI.call_set_args oneLoaded idleNative 0 5 2 [[97], [98, 99]] ()).calls
      = [⟨110, [.ptr 5, .int 2, .charRows 1024 [[97, 0], [98, 99, 0]]]⟩] ∧
    (∀ c ∈ (JniAPI.call_set_args oneLoaded idleNative 0 5 2 [[97], [98, 99]] ()).calls,
      c.args ≠ [.ptr 5, .int 2, .ptrArray [[97, 0], [98, 99, 0]]]) ∧
    (JniAPI_00024.call_set_args oneLoaded idleNative 0 5 1 [97] ()).calls
      = [⟨110, [.ptr 5, .int 1, .charBuf 128 [97, 0]]⟩] ∧
    (∀ c ∈ (JniAPI_00024.call_set_args oneLoaded idleNative 0 5 1 [97] ()).calls,
      c.args ≠ [.ptr 5, .int 1, .ptrArray [[97, 0]]]) := by
  decide

/-! ## C10: the start-up table registers the five system tasks -/

/-- Claim C10: running the routines of `vlog_startup_routines` in order, up to the null
entry, hands the kernel exactly five descriptors, one for each of the system tasks
`$init_rsts`, `$init_ins`, `$init_outs`, `$init_sigs` and `$tick` (hook names
`init_rsts`, `init_ins`, `init_outs`, `init_sigs`, `tick`), each once and each with
the `calltf` callback of the same name; the descriptor of `$tick` carries
`tick_compiletf`, the other four carry no `compiletf`. -/
theorem startup_registers_five_tasks (k : VpiRegister.Kernel) :
    VpiRegister.run_startup VpiRegister.vlog_startup_routines k =
      k ++
      [ { type := .vpiSysTask, tfname := "$init_rsts", calltf := some .init_rsts_calltf,
          sizetf := none, compiletf := none },
        { type := .vpiSysTask, tfname := "$init_ins", calltf := some .init_ins_calltf,
          sizetf := none, compiletf := none },
        { type := .vpiSysTask, tfname := "$init_outs", calltf := some .init_outs_calltf,
          sizetf := none, compiletf := none },
        { type := .vpiSysTask, tfname := "$init_sigs", calltf := some .init_sigs_calltf,
          sizetf := none, compiletf := none },
        { type := .vpiSysTask, tfname := "$tick", calltf := some .tick_calltf,
          sizetf := none, compiletf := some .tick_compiletf } ] ∧
    (VpiRegister.run_startup VpiRegister.vlog_startup_routines []).map VpiRegister.hookName =
      ["init_rsts", "init_ins", "init_outs", "init_sigs", "tick"] := by
  refine ⟨?_, by decide⟩
  simp [VpiRegister.run_startup, VpiRegister.vlog_startup_routines,
    VpiRegister.init_rsts_register, VpiRegister.init_ins_register,
    VpiRegister.init_outs_register, VpiRegister.init_sigs_register,
    VpiRegister.tick_register, VpiRegister.vpi_register_systf]
